import Mathlib

/-!
Verification of the configuration module `docs/conf.py` of the
bit-recover repository.

The file is a flat Python module: two imports, one mutation of
`sys.path`, and a sequence of top-level assignments with a single
conditional branch on the environment variable `READTHEDOCS`.  We embed
it as a list of statements of a small statement language together with
an executor, translated line by line from the source, and prove the
claimed properties of the resulting module namespace.
-/

namespace BitRecover

/-- Python values occurring in `docs/conf.py`: strings, booleans,
integers, `None`, lists, tuples and string-keyed dictionaries. -/
inductive PyVal where
  | vstr (s : String)
  | vbool (b : Bool)
  | vint (n : Int)
  | vnone
  | vlist (xs : List PyVal)
  | vtuple (xs : List PyVal)
  | vdict (xs : List (String × PyVal))

mutual
/-- Python equality (`==`) restricted to the values above.  On the
values actually compared in `docs/conf.py` (a string or `None` against
the string literal `"True"`) this coincides with Python semantics:
values of different types compare unequal, strings compare by exact,
case-sensitive contents. -/
def pyValEq : PyVal → PyVal → Bool
  | .vstr a, .vstr b => a == b
  | .vbool a, .vbool b => a == b
  | .vint a, .vint b => a == b
  | .vnone, .vnone => true
  | .vlist a, .vlist b => pyValListEq a b
  | .vtuple a, .vtuple b => pyValListEq a b
  | .vdict a, .vdict b => pyValPairsEq a b
  | _, _ => false

/-- Elementwise equality of lists of values. -/
def pyValListEq : List PyVal → List PyVal → Bool
  | [], [] => true
  | a :: as, b :: bs => pyValEq a b && pyValListEq as bs
  | _, _ => false

/-- Elementwise equality of string-keyed association lists. -/
def pyValPairsEq : List (String × PyVal) → List (String × PyVal) → Bool
  | [], [] => true
  | (k₁, v₁) :: as, (k₂, v₂) :: bs => k₁ == k₂ && pyValEq v₁ v₂ && pyValPairsEq as bs
  | _, _ => false
end

/-- Expressions occurring in `docs/conf.py`: literals, the call
`os.environ.get key default`, equality tests, module-level name
references, and the call `os.path.abspath` applied to the empty
string (which returns the current working directory). -/
inductive Expr where
  | lit (v : PyVal)
  | environGet (key : String) (dflt : Expr)
  | eqTest (a b : Expr)
  | name (k : String)
  | abspathEmpty

/-- Top-level statements of `docs/conf.py`: an assignment to a
module-level name, the call `sys.path.insert n e`, an import, and an
if/else branch. -/
inductive Stmt where
  | assign (k : String) (e : Expr)
  | sysPathInsert (n : Nat) (e : Expr)
  | importModule (m : String)
  | ifElse (c : Expr) (thenBranch elseBranch : List Stmt)

/-- Interpreter state during evaluation of the module: the process
environment, the current working directory, the interpreter search
path `sys.path`, and the module namespace built so far (in binding
order). -/
structure PyState where
  env : String → Option String
  cwd : String
  sysPath : List String
  ns : List (String × PyVal)

/-- Bind a name in the namespace: rebinding replaces in place, a new
name is appended, so the namespace lists bindings in first-assignment
order. -/
def setVar (k : String) (v : PyVal) : List (String × PyVal) → List (String × PyVal)
  | [] => [(k, v)]
  | (k₁, v₁) :: rest => if k₁ = k then (k, v) :: rest else (k₁, v₁) :: setVar k v rest

/-- Python truthiness of a value, used by `if`. -/
def pyTruthy : PyVal → Bool
  | .vstr s => !(s == "")
  | .vbool b => b
  | .vint n => !(n == 0)
  | .vnone => false
  | .vlist xs => !xs.isEmpty
  | .vtuple xs => !xs.isEmpty
  | .vdict xs => !xs.isEmpty

/-- Evaluate an expression in a state.  `environGet` returns the
value of the environment variable when set and otherwise evaluates the
default expression; a reference to an unbound name is the one error
case (`none`, a `NameError` in Python). -/
def evalExpr (st : PyState) : Expr → Option PyVal
  | .lit v => some v
  | .environGet key dflt =>
      match st.env key with
      | some s => some (.vstr s)
      | none => evalExpr st dflt
  | .eqTest a b => do
      let x ← evalExpr st a
      let y ← evalExpr st b
      pure (.vbool (pyValEq x y))
  | .name k => List.lookup k st.ns
  | .abspathEmpty => some (.vstr st.cwd)

mutual
/-- Execute one statement. -/
def execStmt (st : PyState) : Stmt → Option PyState
  | .assign k e => (evalExpr st e).map (fun v => { st with ns := setVar k v st.ns })
  | .sysPathInsert n e =>
      match evalExpr st e with
      | some (.vstr s) => some { st with sysPath := st.sysPath.insertIdx n s }
      | _ => none
  | .importModule _ => some st
  | .ifElse c thenBranch elseBranch =>
      match evalExpr st c with
      | some v => if pyTruthy v then execStmts st thenBranch else execStmts st elseBranch
      | none => none

/-- Execute a list of statements in order, stopping at the first
error. -/
def execStmts (st : PyState) : List Stmt → Option PyState
  | [] => some st
  | s :: rest =>
      match execStmt st s with
      | some st₂ => execStmts st₂ rest
      | none => none
end

/-- The statements of `docs/conf.py`, in source order. -/
def confStmts : List Stmt := [
  .importModule "sys",
  .importModule "os",
  .sysPathInsert 0 .abspathEmpty,
  .assign "extensions" (.lit (.vlist [
    .vstr "sphinx.ext.autodoc",
    .vstr "sphinx.ext.doctest",
    .vstr "sphinxcontrib.napoleon",
    .vstr "sphinx.ext.todo",
    .vstr "sphinx.ext.coverage",
    .vstr "sphinx.ext.mathjax",
    .vstr "sphinx.ext.ifconfig",
    .vstr "sphinx.ext.viewcode"])),
  .assign "templates_path" (.lit (.vlist [.vstr "_templates"])),
  .assign "source_suffix" (.lit (.vstr ".rst")),
  .assign "master_doc" (.lit (.vstr "index")),
  .assign "project" (.lit (.vstr "Bit Recovery")),
  .assign "copyright" (.lit (.vstr "2013, Dirk Roorda")),
  .assign "version" (.lit (.vstr "1.2")),
  .assign "release" (.lit (.vstr "1.2.1")),
  .assign "exclude_patterns" (.lit (.vlist [.vstr "_build"])),
  .assign "add_function_parentheses" (.lit (.vbool true)),
  .assign "add_module_names" (.lit (.vbool false)),
  .assign "pygments_style" (.lit (.vstr "sphinx")),
  .assign "autoclass_content" (.lit (.vstr "both")),
  .assign "on_rtd" (.eqTest (.environGet "READTHEDOCS" (.lit .vnone)) (.lit (.vstr "True"))),
  .ifElse (.name "on_rtd")
    [.assign "html_theme" (.lit (.vstr "default"))]
    [.assign "html_theme" (.lit (.vstr "sphinx_rtd_theme"))],
  .assign "html_theme_path" (.lit (.vlist [.vstr "_themes"])),
  .assign "html_static_path" (.lit (.vlist [.vstr "_static"])),
  .assign "html_domain_indices" (.lit (.vbool true)),
  .assign "html_use_index" (.lit (.vbool true)),
  .assign "html_split_index" (.lit (.vbool false)),
  .assign "html_show_sourcelink" (.lit (.vbool true)),
  .assign "html_show_sphinx" (.lit (.vbool true)),
  .assign "html_show_copyright" (.lit (.vbool true)),
  .assign "htmlhelp_basename" (.lit (.vstr "Bit Recovery")),
  .assign "latex_elements" (.lit (.vdict [
    ("papersize", .vstr "a4paper"),
    ("pointsize", .vstr "10pt")])),
  .assign "latex_documents" (.lit (.vlist [
    .vtuple [.vstr "index", .vstr "Bit Recovery.tex", .vstr "Bit Recovery Documentation",
      .vstr "Dirk Roorda", .vstr "manual"]])),
  .assign "man_pages" (.lit (.vlist [
    .vtuple [.vstr "index", .vstr "Bit Recovery", .vstr "Bit Recovery Documentation",
      .vlist [.vstr "Dirk Roorda"], .vint 1]])),
  .assign "texinfo_documents" (.lit (.vlist [
    .vtuple [.vstr "index", .vstr "Bit Recovery", .vstr "Bit Recovery Documentation",
      .vstr "Dirk Roorda", .vstr "Bit Recovery", .vstr "One line description of project.",
      .vstr "Miscellaneous"]])),
  .assign "epub_title" (.lit (.vstr "Bit Recovery")),
  .assign "epub_author" (.lit (.vstr "Dirk Roorda")),
  .assign "epub_publisher" (.lit (.vstr "Dirk Roorda")),
  .assign "epub_copyright" (.lit (.vstr "2013, Dirk Roorda")),
  .assign "epub_basename" (.lit (.vstr "Bit Recovery")),
  .assign "epub_theme" (.lit (.vstr "epub")),
  .assign "epub_show_urls" (.lit (.vstr "footnote")),
  .assign "epub_use_index" (.lit (.vbool true))]

/-- The interpreter state at module start: given environment, working
directory and `sys.path`, with an empty module namespace. -/
def initState (env : String → Option String) (cwd : String) (sysPath : List String) : PyState :=
  { env := env, cwd := cwd, sysPath := sysPath, ns := [] }

/-- Evaluate `docs/conf.py` from the given environment, working
directory and initial `sys.path`. -/
def runConf (env : String → Option String) (cwd : String) (sysPath : List String) :
    Option PyState :=
  execStmts (initState env cwd sysPath) confStmts

/-- The module namespace produced by evaluating `docs/conf.py`
(empty in the unreachable error case). -/
def moduleNs (env : String → Option String) (cwd : String) (sysPath : List String) :
    List (String × PyVal) :=
  match runConf env cwd sysPath with
  | some st => st.ns
  | none => []

/-- The value of the expression `os.environ.get "READTHEDOCS" None`
as a function of the READTHEDOCS entry of the environment. -/
def rtdVal (rtd : Option String) : PyVal :=
  match rtd with
  | some s => .vstr s
  | none => .vnone

/-- The value bound to `on_rtd` as a function of the READTHEDOCS
entry of the environment. -/
def rtdFlag (rtd : Option String) : Bool :=
  pyValEq (rtdVal rtd) (.vstr "True")

/-- The value bound to `html_theme` as a function of the READTHEDOCS
entry of the environment. -/
def themeOf (rtd : Option String) : String :=
  if rtdFlag rtd then "default" else "sphinx_rtd_theme"

/-- The module namespace left by `docs/conf.py`, in binding order, as
a function of the READTHEDOCS entry of the environment. -/
def finalNs (rtd : Option String) : List (String × PyVal) := [
  ("extensions", .vlist [
    .vstr "sphinx.ext.autodoc",
    .vstr "sphinx.ext.doctest",
    .vstr "sphinxcontrib.napoleon",
    .vstr "sphinx.ext.todo",
    .vstr "sphinx.ext.coverage",
    .vstr "sphinx.ext.mathjax",
    .vstr "sphinx.ext.ifconfig",
    .vstr "sphinx.ext.viewcode"]),
  ("templates_path", .vlist [.vstr "_templates"]),
  ("source_suffix", .vstr ".rst"),
  ("master_doc", .vstr "index"),
  ("project", .vstr "Bit Recovery"),
  ("copyright", .vstr "2013, Dirk Roorda"),
  ("version", .vstr "1.2"),
  ("release", .vstr "1.2.1"),
  ("exclude_patterns", .vlist [.vstr "_build"]),
  ("add_function_parentheses", .vbool true),
  ("add_module_names", .vbool false),
  ("pygments_style", .vstr "sphinx"),
  ("autoclass_content", .vstr "both"),
  ("on_rtd", .vbool (rtdFlag rtd)),
  ("html_theme", .vstr (themeOf rtd)),
  ("html_theme_path", .vlist [.vstr "_themes"]),
  ("html_static_path", .vlist [.vstr "_static"]),
  ("html_domain_indices", .vbool true),
  ("html_use_index", .vbool true),
  ("html_split_index", .vbool false),
  ("html_show_sourcelink", .vbool true),
  ("html_show_sphinx", .vbool true),
  ("html_show_copyright", .vbool true),
  ("htmlhelp_basename", .vstr "Bit Recovery"),
  ("latex_elements", .vdict [
    ("papersize", .vstr "a4paper"),
    ("pointsize", .vstr "10pt")]),
  ("latex_documents", .vlist [
    .vtuple [.vstr "index", .vstr "Bit Recovery.tex", .vstr "Bit Recovery Documentation",
      .vstr "Dirk Roorda", .vstr "manual"]]),
  ("man_pages", .vlist [
    .vtuple [.vstr "index", .vstr "Bit Recovery", .vstr "Bit Recovery Documentation",
      .vlist [.vstr "Dirk Roorda"], .vint 1]]),
  ("texinfo_documents", .vlist [
    .vtuple [.vstr "index", .vstr "Bit Recovery", .vstr "Bit Recovery Documentation",
      .vstr "Dirk Roorda", .vstr "Bit Recovery", .vstr "One line description of project.",
      .vstr "Miscellaneous"]]),
  ("epub_title", .vstr "Bit Recovery"),
  ("epub_author", .vstr "Dirk Roorda"),
  ("epub_publisher", .vstr "Dirk Roorda"),
  ("epub_copyright", .vstr "2013, Dirk Roorda"),
  ("epub_basename", .vstr "Bit Recovery"),
  ("epub_theme", .vstr "epub"),
  ("epub_show_urls", .vstr "footnote"),
  ("epub_use_index", .vbool true)]

set_option maxHeartbeats 2000000 in
/-- Evaluating `docs/conf.py` always succeeds; it prepends the
working directory to `sys.path`, leaves the environment and the
working directory unchanged, and builds the namespace `finalNs`
determined by the READTHEDOCS entry of the environment alone. -/
theorem runConf_eq (env : String → Option String) (cwd : String) (sysPath : List String) :
    runConf env cwd sysPath =
      some { env := env, cwd := cwd, sysPath := cwd :: sysPath,
             ns := finalNs (env "READTHEDOCS") } := by
  rcases h : env "READTHEDOCS" with _ | s
  · simp [runConf, initState, confStmts, execStmts, execStmt, evalExpr, setVar, pyTruthy,
      pyValEq, finalNs, rtdFlag, rtdVal, themeOf, h, List.lookup, List.insertIdx]
  · by_cases hs : s = "True"
    · subst hs
      simp [runConf, initState, confStmts, execStmts, execStmt, evalExpr, setVar, pyTruthy,
        pyValEq, finalNs, rtdFlag, rtdVal, themeOf, h, List.lookup, List.insertIdx]
    · have hb : (s == "True") = false := by
        simp [hs]
      simp [runConf, initState, confStmts, execStmts, execStmt, evalExpr, setVar, pyTruthy,
        pyValEq, finalNs, rtdFlag, rtdVal, themeOf, h, hb, List.lookup, List.insertIdx]

/-- The module namespace is `finalNs` of the READTHEDOCS entry. -/
theorem moduleNs_eq (env : String → Option String) (cwd : String) (sysPath : List String) :
    moduleNs env cwd sysPath = finalNs (env "READTHEDOCS") := by
  simp [moduleNs, runConf_eq]

/-- The `on_rtd` flag is set exactly when the READTHEDOCS entry is
the exact string True. -/
theorem rtdFlag_iff (rtd : Option String) : rtdFlag rtd = true ↔ rtd = some "True" := by
  cases rtd <;> simp [rtdFlag, rtdVal, pyValEq]

/-- C1: for every value of the environment variable READTHEDOCS, the
binding of html_theme is the string default when the value is exactly
the string True (case-sensitively), and sphinx_rtd_theme for every
other value, including the variable being unset and case variants
such as TRUE or false. -/
theorem html_theme_selection (env : String → Option String) (cwd : String)
    (sysPath : List String) :
    List.lookup "html_theme" (moduleNs env cwd sysPath) =
      some (.vstr (if env "READTHEDOCS" = some "True" then "default"
        else "sphinx_rtd_theme")) := by
  rw [moduleNs_eq]
  rcases h : env "READTHEDOCS" with _ | s
  · simp [finalNs, themeOf, rtdFlag, rtdVal, pyValEq, List.lookup]
  · by_cases hs : s = "True" <;>
      simp [finalNs, themeOf, rtdFlag, rtdVal, pyValEq, hs, List.lookup]

/-- C2: for any two environments, all bindings of the resulting
namespace other than on_rtd and html_theme (the two derived from the
READTHEDOCS lookup) are identical. -/
theorem config_constant_outside_theme (env₁ env₂ : String → Option String)
    (cwd : String) (sysPath : List String) :
    (moduleNs env₁ cwd sysPath).filter
        (fun p => !(p.1 == "on_rtd" || p.1 == "html_theme")) =
    (moduleNs env₂ cwd sysPath).filter
        (fun p => !(p.1 == "on_rtd" || p.1 == "html_theme")) := by
  rw [moduleNs_eq, moduleNs_eq]
  simp [finalNs, List.filter]

/-- C3: evaluation cannot fail for any environment: the whole module
evaluates to a result, the READTHEDOCS lookup returns the defined
default None when the variable is unset, and the equality comparison
yields a defined boolean for every pair of values. -/
theorem conf_eval_total (env : String → Option String) (cwd : String)
    (sysPath : List String) :
    (∃ st, runConf env cwd sysPath = some st) ∧
    (env "READTHEDOCS" = none →
      evalExpr (initState env cwd sysPath)
        (.environGet "READTHEDOCS" (.lit .vnone)) = some .vnone) ∧
    (∀ x y : PyVal, ∃ b : Bool,
      evalExpr (initState env cwd sysPath) (.eqTest (.lit x) (.lit y)) =
        some (.vbool b)) := by
  refine ⟨⟨_, runConf_eq env cwd sysPath⟩, fun h => by simp [evalExpr, initState, h],
    fun x y => ⟨pyValEq x y, by simp [evalExpr]⟩⟩

/-- Witness for C3 at a concrete unset environment. -/
theorem conf_eval_total_witness :
    evalExpr (initState (fun _ => none) "/repo/docs" [])
      (.environGet "READTHEDOCS" (.lit .vnone)) = some .vnone :=
  (conf_eval_total (fun _ => none) "/repo/docs" []).2.1 rfl

/-- C4: the resulting namespace is a function of the READTHEDOCS
value alone: two evaluations whose environments agree on READTHEDOCS
(in particular two evaluations under identical environments) produce
equal namespaces. -/
theorem namespace_depends_only_on_rtd (env₁ env₂ : String → Option String)
    (cwd : String) (sysPath : List String)
    (h : env₁ "READTHEDOCS" = env₂ "READTHEDOCS") :
    moduleNs env₁ cwd sysPath = moduleNs env₂ cwd sysPath := by
  rw [moduleNs_eq, moduleNs_eq, h]

/-- Witness for C4 at two concrete environments that agree on
READTHEDOCS but differ elsewhere. -/
theorem namespace_depends_only_on_rtd_witness :
    moduleNs (fun _ => none) "/repo/docs" [] =
    moduleNs (fun k => if k = "HOME" then some "/root" else none) "/repo/docs" [] :=
  namespace_depends_only_on_rtd _ _ _ _ (by simp)

/-- Counterexample to C5: with READTHEDOCS unset, working directory
/repo/docs and an empty initial sys.path, evaluation does not leave
sys.path unchanged: the final sys.path is [/repo/docs], not []. -/
theorem sys_path_not_preserved :
    (runConf (fun _ => none) "/repo/docs" []).map PyState.sysPath ≠ some [] ∧
    (runConf (fun _ => none) "/repo/docs" []).map PyState.sysPath =
      some ["/repo/docs"] := by
  rw [runConf_eq]
  constructor
  · simp
  · rfl

/-- C5 amended: evaluation modifies interpreter state only by
inserting the absolute path of the current working directory at
position 0 of sys.path; the environment and the working directory are
unchanged, and the only other effect is the configuration namespace
itself. -/
theorem sys_path_insert_frame (env : String → Option String) (cwd : String)
    (sysPath : List String) :
    ∃ st, runConf env cwd sysPath = some st ∧ st.sysPath = cwd :: sysPath ∧
      st.env = env ∧ st.cwd = cwd :=
  ⟨_, runConf_eq env cwd sysPath, rfl, rfl, rfl⟩

/-- C6: for every environment the namespace defines project, version,
release and html_theme, with project = Bit Recovery, version = 1.2
and release = 1.2.1. -/
theorem project_metadata_bindings (env : String → Option String) (cwd : String)
    (sysPath : List String) :
    List.lookup "project" (moduleNs env cwd sysPath) = some (.vstr "Bit Recovery") ∧
    List.lookup "version" (moduleNs env cwd sysPath) = some (.vstr "1.2") ∧
    List.lookup "release" (moduleNs env cwd sysPath) = some (.vstr "1.2.1") ∧
    (List.lookup "html_theme" (moduleNs env cwd sysPath)).isSome = true := by
  simp only [moduleNs_eq]
  simp [finalNs, List.lookup]

mutual
/-- Number of conditional statements in a statement, nested branches
included. -/
def stmtBranches : Stmt → Nat
  | .assign _ _ => 0
  | .sysPathInsert _ _ => 0
  | .importModule _ => 0
  | .ifElse _ thenBranch elseBranch =>
      1 + stmtsBranches thenBranch + stmtsBranches elseBranch

/-- Number of conditional statements in a statement list, nested
branches included. -/
def stmtsBranches : List Stmt → Nat
  | [] => 0
  | s :: rest => stmtBranches s + stmtsBranches rest
end

/-- C7: evaluation terminates for every environment: the module is a
list of 39 top-level statements containing exactly one conditional,
executed in a single pass by the structurally recursive executor,
which always produces a result. -/
theorem conf_single_pass_terminates (env : String → Option String) (cwd : String)
    (sysPath : List String) :
    (∃ st, runConf env cwd sysPath = some st) ∧
    stmtsBranches confStmts = 1 ∧
    confStmts.length = 39 :=
  ⟨⟨_, runConf_eq env cwd sysPath⟩, rfl, rfl⟩

/-- C8: the boolean on_rtd and the theme selection agree: on_rtd is
true exactly when html_theme is default, and false exactly when
html_theme is sphinx_rtd_theme. -/
theorem on_rtd_theme_agreement (env : String → Option String) (cwd : String)
    (sysPath : List String) :
    ∃ (b : Bool) (s : String),
      List.lookup "on_rtd" (moduleNs env cwd sysPath) = some (.vbool b) ∧
      List.lookup "html_theme" (moduleNs env cwd sysPath) = some (.vstr s) ∧
      (b = true ↔ s = "default") ∧
      (b = false ↔ s = "sphinx_rtd_theme") := by
  refine ⟨rtdFlag (env "READTHEDOCS"), themeOf (env "READTHEDOCS"), ?_, ?_, ?_, ?_⟩
  · simp only [moduleNs_eq]
    simp [finalNs, List.lookup]
  · simp only [moduleNs_eq]
    simp [finalNs, List.lookup]
  · cases hb : rtdFlag (env "READTHEDOCS") <;> simp [themeOf, hb]
  · cases hb : rtdFlag (env "READTHEDOCS") <;> simp [themeOf, hb]

/-- C9: html_theme takes exactly one of the two values default or
sphinx_rtd_theme, and html_theme_path is the constant list containing
the single entry _themes. -/
theorem theme_two_values_path_constant (env : String → Option String) (cwd : String)
    (sysPath : List String) :
    (List.lookup "html_theme" (moduleNs env cwd sysPath) = some (.vstr "default") ∨
     List.lookup "html_theme" (moduleNs env cwd sysPath) =
       some (.vstr "sphinx_rtd_theme")) ∧
    List.lookup "html_theme_path" (moduleNs env cwd sysPath) =
      some (.vlist [.vstr "_themes"]) := by
  simp only [moduleNs_eq]
  constructor
  · cases hb : rtdFlag (env "READTHEDOCS")
    · right
      simp [finalNs, themeOf, hb, List.lookup]
    · left
      simp [finalNs, themeOf, hb, List.lookup]
  · simp [finalNs, List.lookup]

mutual
/-- All string leaves of a value: the string itself for a string, the
concatenated leaves of the elements for lists, tuples and dictionary
values, nothing otherwise. -/
def strLeaves : PyVal → List String
  | .vstr s => [s]
  | .vbool _ => []
  | .vint _ => []
  | .vnone => []
  | .vlist xs => strLeavesList xs
  | .vtuple xs => strLeavesList xs
  | .vdict xs => strLeavesPairs xs

/-- String leaves of a list of values. -/
def strLeavesList : List PyVal → List String
  | [] => []
  | v :: vs => strLeaves v ++ strLeavesList vs

/-- String leaves of the values of an association list. -/
def strLeavesPairs : List (String × PyVal) → List String
  | [] => []
  | (_, v) :: vs => strLeaves v ++ strLeavesPairs vs
end

/-- Whether the first character list is an initial segment of the
second. -/
def charsPrefix : List Char → List Char → Bool
  | [], _ => true
  | _ :: _, [] => false
  | a :: as, b :: bs => a == b && charsPrefix as bs

/-- Whether the first character list occurs contiguously inside the
second. -/
def charsOccur : List Char → List Char → Bool
  | t, [] => charsPrefix t []
  | t, c :: rest => charsPrefix t (c :: rest) || charsOccur t rest

/-- Whether the string t occurs (exactly, case-sensitively) inside
the string s. -/
def strOccurs (t s : String) : Bool :=
  charsOccur t.toList s.toList

/-- Whether the string t occurs in some string leaf of the value. -/
def strOccursVal (t : String) (v : PyVal) : Bool :=
  (strLeaves v).any (fun s => strOccurs t s)

/-- The namespace binds the key to a value in which the string t
appears identically. -/
def bindingHasStr (ns : List (String × PyVal)) (k t : String) : Prop :=
  ∃ v, List.lookup k ns = some v ∧ strOccursVal t v = true

/-- First components of the tuple entries of a list value. -/
def entryHeads : PyVal → List (Option PyVal)
  | .vlist es => es.map (fun e =>
      match e with
      | .vtuple (x :: _) => some x
      | _ => none)
  | _ => []

/-- C10: the project metadata is consistent across the output-format
configurations: the title Bit Recovery appears identically in
project, htmlhelp_basename, latex_documents, man_pages,
texinfo_documents, epub_title and epub_basename; the author Dirk
Roorda appears identically in latex_documents, man_pages,
texinfo_documents, epub_author and epub_publisher; epub_copyright
equals copyright; and the first component of each entry of
latex_documents, man_pages and texinfo_documents equals the value of
master_doc, the string index. -/
theorem metadata_consistency (env : String → Option String) (cwd : String)
    (sysPath : List String) :
    (bindingHasStr (moduleNs env cwd sysPath) "project" "Bit Recovery" ∧
     bindingHasStr (moduleNs env cwd sysPath) "htmlhelp_basename" "Bit Recovery" ∧
     bindingHasStr (moduleNs env cwd sysPath) "latex_documents" "Bit Recovery" ∧
     bindingHasStr (moduleNs env cwd sysPath) "man_pages" "Bit Recovery" ∧
     bindingHasStr (moduleNs env cwd sysPath) "texinfo_documents" "Bit Recovery" ∧
     bindingHasStr (moduleNs env cwd sysPath) "epub_title" "Bit Recovery" ∧
     bindingHasStr (moduleNs env cwd sysPath) "epub_basename" "Bit Recovery") ∧
    (bindingHasStr (moduleNs env cwd sysPath) "latex_documents" "Dirk Roorda" ∧
     bindingHasStr (moduleNs env cwd sysPath) "man_pages" "Dirk Roorda" ∧
     bindingHasStr (moduleNs env cwd sysPath) "texinfo_documents" "Dirk Roorda" ∧
     bindingHasStr (moduleNs env cwd sysPath) "epub_author" "Dirk Roorda" ∧
     bindingHasStr (moduleNs env cwd sysPath) "epub_publisher" "Dirk Roorda") ∧
    List.lookup "epub_copyright" (moduleNs env cwd sysPath) =
      List.lookup "copyright" (moduleNs env cwd sysPath) ∧
    List.lookup "master_doc" (moduleNs env cwd sysPath) = some (.vstr "index") ∧
    (∃ v, List.lookup "latex_documents" (moduleNs env cwd sysPath) = some v ∧
       entryHeads v = [some (.vstr "index")]) ∧
    (∃ v, List.lookup "man_pages" (moduleNs env cwd sysPath) = some v ∧
       entryHeads v = [some (.vstr "index")]) ∧
    (∃ v, List.lookup "texinfo_documents" (moduleNs env cwd sysPath) = some v ∧
       entryHeads v = [some (.vstr "index")]) := by
  simp only [moduleNs_eq, bindingHasStr]
  simp +decide [finalNs, List.lookup, entryHeads, strOccursVal, strLeaves,
    strLeavesList, strLeavesPairs, strOccurs, charsOccur, charsPrefix]

end BitRecover
